import Mathlib

/-
Verification of the normalization and lookup logic of the NumInfo app
(src/app.py): the field mapper auto_map_fields, the result-shape
dispatcher handle_multiple_results, the lookup client call_api, the
mock generator mock_lookup, and the error handling of the lookup
action.  Python dictionaries are embedded as insertion-ordered
association lists of string keys; JSON-like values as the inductive
type Value.
-/

namespace NumInfo

/-- A JSON-like Python value: None, bool, int, str, list, or dict
(a dict is an insertion-ordered association list). -/
inductive Value : Type where
  | null : Value
  | bool : Bool → Value
  | int : Int → Value
  | str : String → Value
  | list : List Value → Value
  | dict : List (String × Value) → Value

/-- Python truthiness for the embedded values: None and empty or zero
values are falsy, everything else is truthy. -/
def truthy : Value → Bool
  | .null => false
  | .bool b => b
  | .int n => n != 0
  | .str s => s != ""
  | .list l => !l.isEmpty
  | .dict d => !d.isEmpty

/-- Key lookup in a dict embedded as an association list: the first
entry with the given key wins (a Python dict has unique keys). -/
def lookupAssoc : List (String × Value) → String → Option Value
  | [], _ => none
  | (k', v) :: rest, k => if k' = k then some v else lookupAssoc rest k

/-- Key lookup on a Value; a non-dict value has no keys. -/
def dictLookup : Value → String → Option Value
  | .dict d, k => lookupAssoc d k
  | _, _ => none

/-- The static alias table of auto_map_fields (src/app.py lines 84 to 89),
in its fixed iteration order. -/
def mapping : List (String × List String) :=
  [("name", ["name", "fullname", "user"]),
   ("mobile", ["mobile", "phone", "number"]),
   ("email", ["email", "mail"]),
   ("address", ["address", "location"])]

/-- The flattened list of all alias keys, as built by the comprehension
on line 96 of src/app.py. -/
def allAliasKeys : List String := (mapping.map Prod.snd).flatten

/-- Whether a key occurs in any alias list. -/
def isAliased (k : String) : Bool := allAliasKeys.contains k

/-- The inner loop of auto_map_fields (lines 92 to 95): scan the alias
list in order and select the first key that is present in the data and
holds a truthy value. -/
def selectSlot (data : List (String × Value)) : List String → Option Value
  | [] => none
  | k :: ks =>
    match lookupAssoc data k with
    | some v => if truthy v then some v else selectSlot data ks
    | none => selectSlot data ks

/-- The outer loop of auto_map_fields (lines 91 to 95): for each
canonical slot in table order, add the selected value, if any, to the
mapped dict in insertion order. -/
def slotEntries (data : List (String × Value)) : List (String × Value) :=
  mapping.foldr
    (fun slot acc =>
      match selectSlot data slot.2 with
      | some v => (slot.1, v) :: acc
      | none => acc)
    []

/-- The catch-all bucket (line 96): all entries whose key is in no
alias list, in input order, with unmodified values. -/
def othersOf (data : List (String × Value)) : List (String × Value) :=
  data.filter fun kv => !(isAliased kv.1)

/-- auto_map_fields (src/app.py lines 81 to 99): a non-dict input is
wrapped as a raw record; a dict input is mapped slot by slot, and a
nonempty catch-all bucket is appended under the key "others". -/
def auto_map_fields : Value → Value
  | .dict data =>
    let mapped := slotEntries data
    let others := othersOf data
    .dict (if others.isEmpty then mapped else mapped ++ [("others", .dict others)])
  | v => .dict [("raw", v)]

/-- The per-record step of handle_multiple_results: apply the field
mapper when auto_map is set, else pass the record through unchanged. -/
def mapItem (auto_map : Bool) (item : Value) : Value :=
  if auto_map then auto_map_fields item else item

/-- handle_multiple_results (src/app.py lines 101 to 107): dispatch on
the payload shape, list first, then a dict holding a list under
"results", else the whole payload as a single record. -/
def handle_multiple_results (auto_map : Bool) : Value → List Value
  | .list items => items.map (mapItem auto_map)
  | .dict d =>
    match lookupAssoc d "results" with
    | some (.list items) => items.map (mapItem auto_map)
    | _ => [mapItem auto_map (.dict d)]
  | v => [mapItem auto_map v]

/-- The records selected by the dispatch of handle_multiple_results,
before any mapping is applied. -/
def selectedRecords : Value → List Value
  | .list items => items
  | .dict d =>
    match lookupAssoc d "results" with
    | some (.list items) => items
    | _ => [.dict d]
  | v => [v]

/-- An HTTP response as call_api observes it: a status code, the JSON
parse result of the body (none when the body is not valid JSON), and
the raw body text. -/
structure HttpResponse where
  status_code : Nat
  json : Option Value
  text : String

/-- call_api (src/app.py lines 71 to 79) after the request returned: a
parseable body is returned as data, a non-parseable body is wrapped as
a text record; the status code is returned alongside in both cases. -/
def call_api (r : HttpResponse) : Value × Nat :=
  match r.json with
  | some d => (d, r.status_code)
  | none => (Value.dict [("text", .str r.text)], r.status_code)

/-- The three canned records of mock_lookup (lines 64 to 68); each
carries the search term in its mobile slot. -/
def samples (term_value : String) : List Value :=
  [.dict [("name", .str "Rahul Kumar"), ("mobile", .str term_value),
          ("email", .str "rahul.k@example.com")],
   .dict [("name", .str "Priya Sharma"), ("mobile", .str term_value),
          ("email", .str "priya.sh@example.com")],
   .dict [("name", .str "Unknown"), ("mobile", .str term_value),
          ("note", .str "No data")]]

/-- mock_lookup (src/app.py lines 63 to 69): select one canned record
by hashing the term modulo the number of samples.  The process hash
function is a parameter, since Python string hashing varies per
process; Int.emod agrees with the Python modulo on a positive
modulus. -/
def mock_lookup (pyhash : String → Int) (term_value : String) : Value :=
  (samples term_value).getD
    ((pyhash term_value) % ((samples term_value).length : Int)).toNat Value.null

/-- The mock branch of the lookup handler (lines 116 to 118): a mock
result is paired with the fixed success status 200. -/
def mock_branch (pyhash : String → Int) (term : String) : Value × Nat :=
  (mock_lookup pyhash term, 200)

/-- The outcome of the attempted lookup call inside the try block
(src/app.py lines 115 to 121): success with payload and status, a
requests.RequestException carrying an optional response status code,
or any other exception; each exception carries its message. -/
inductive LookupOutcome where
  | success : Value → Nat → LookupOutcome
  | requestException : String → Option Nat → LookupOutcome
  | otherException : String → LookupOutcome

/-- The lookup boundary (src/app.py lines 115 to 127): exceptions are
converted into an error record; the status is the status code of the
failed response when one exists, else None. -/
def lookup_boundary : LookupOutcome → Value × Option Nat
  | .success v s => (v, some s)
  | .requestException msg st => (Value.dict [("error", .str msg)], st)
  | .otherException msg => (Value.dict [("error", .str msg)], none)

/- ---------- Helper lemmas ---------- -/

theorem lookupAssoc_append (l₁ l₂ : List (String × Value)) (k : String) :
    lookupAssoc (l₁ ++ l₂) k =
      match lookupAssoc l₁ k with
      | some v => some v
      | none => lookupAssoc l₂ k := by
  induction l₁ with
  | nil => simp [lookupAssoc]
  | cons hd tl ih =>
    cases hd with
    | mk k' v =>
      by_cases h : k' = k <;> simp [lookupAssoc, h, ih]

theorem lookupAssoc_slotEntries_mobile (data : List (String × Value)) :
    lookupAssoc (slotEntries data) "mobile"
      = selectSlot data ["mobile", "phone", "number"] := by
  simp only [slotEntries, mapping, List.foldr]
  rcases selectSlot data ["name", "fullname", "user"] with _ | v₁ <;>
  rcases selectSlot data ["mobile", "phone", "number"] with _ | v₂ <;>
  rcases selectSlot data ["email", "mail"] with _ | v₃ <;>
  rcases selectSlot data ["address", "location"] with _ | v₄ <;>
  simp [lookupAssoc]

theorem lookupAssoc_slotEntries_others (data : List (String × Value)) :
    lookupAssoc (slotEntries data) "others" = none := by
  simp only [slotEntries, mapping, List.foldr]
  rcases selectSlot data ["name", "fullname", "user"] with _ | v₁ <;>
  rcases selectSlot data ["mobile", "phone", "number"] with _ | v₂ <;>
  rcases selectSlot data ["email", "mail"] with _ | v₃ <;>
  rcases selectSlot data ["address", "location"] with _ | v₄ <;>
  simp [lookupAssoc]

theorem dictLookup_auto_map_mobile (data : List (String × Value)) :
    dictLookup (auto_map_fields (.dict data)) "mobile"
      = selectSlot data ["mobile", "phone", "number"] := by
  simp only [auto_map_fields, dictLookup]
  by_cases h : (othersOf data).isEmpty
  · simp [h, lookupAssoc_slotEntries_mobile]
  · simp only [h, if_neg, Bool.false_eq_true, not_false_eq_true, if_false,
      lookupAssoc_append, lookupAssoc_slotEntries_mobile]
    rcases selectSlot data ["mobile", "phone", "number"] with _ | v <;>
      simp [lookupAssoc]

theorem dictLookup_auto_map_others (data : List (String × Value)) :
    dictLookup (auto_map_fields (.dict data)) "others"
      = if (othersOf data).isEmpty then none else some (.dict (othersOf data)) := by
  simp only [auto_map_fields, dictLookup]
  by_cases h : (othersOf data).isEmpty
  · simp [h, lookupAssoc_slotEntries_others]
  · simp [h, lookupAssoc_append, lookupAssoc_slotEntries_others, lookupAssoc]

theorem lookupAssoc_eq_none_of_unaliased (data : List (String × Value))
    (hall : ∀ kv ∈ data, isAliased kv.1 = false)
    (k : String) (hk : isAliased k = true) :
    lookupAssoc data k = none := by
  induction data with
  | nil => rfl
  | cons hd tl ih =>
    cases hd with
    | mk k' v =>
      have hk' : isAliased k' = false := hall (k', v) (List.mem_cons_self _ _)
      have hne : k' ≠ k := by
        intro h
        rw [h, hk] at hk'
        exact Bool.true_eq_false.mp hk'
      simp only [lookupAssoc, if_neg hne]
      exact ih fun kv h => hall kv (List.mem_cons_of_mem _ h)

/- ---------- Claims ---------- -/

/-- C1 counterexample: the claim, as stated, fails when the mobile key
holds a falsy value.  For the input with mobile mapped to the empty
string and phone mapped to "123", the output mobile slot holds "123",
not the input mobile value. -/
theorem C1_counterexample :
    lookupAssoc [("mobile", Value.str ""), ("phone", Value.str "123")] "mobile"
      = some (Value.str "") ∧
    lookupAssoc [("mobile", Value.str ""), ("phone", Value.str "123")] "phone"
      = some (Value.str "123") ∧
    dictLookup (auto_map_fields
        (.dict [("mobile", Value.str ""), ("phone", Value.str "123")])) "mobile"
      ≠ some (Value.str "") := by
  refine ⟨rfl, rfl, ?_⟩
  have h : dictLookup (auto_map_fields
      (.dict [("mobile", Value.str ""), ("phone", Value.str "123")])) "mobile"
      = some (Value.str "123") := rfl
  rw [h]
  simp

/-- C1 (amended): for every record whose mobile key holds a truthy
value, the output mobile slot equals that value; the later aliases
phone and number are not examined. -/
theorem C1_mobile_priority (data : List (String × Value)) (v : Value)
    (hm : lookupAssoc data "mobile" = some v) (ht : truthy v = true) :
    dictLookup (auto_map_fields (.dict data)) "mobile" = some v := by
  rw [dictLookup_auto_map_mobile]
  simp [selectSlot, hm, ht]

/-- C1 witness: a concrete record holding both mobile and phone, with
a truthy mobile value that wins over phone. -/
theorem C1_witness :
    dictLookup (auto_map_fields
        (.dict [("mobile", Value.str "7"), ("phone", Value.str "123")])) "mobile"
      = some (Value.str "7") :=
  C1_mobile_priority [("mobile", Value.str "7"), ("phone", Value.str "123")]
    (Value.str "7") rfl rfl

/-- C2: every entry of the input whose key is in no alias list appears
unmodified in the others bucket of the output, and every entry of the
others bucket comes unmodified from the input, has an unaliased key,
and its key is none of the four canonical slot names. -/
theorem C2_others_partition (data : List (String × Value)) :
    (∀ kv ∈ data, isAliased kv.1 = false →
        dictLookup (auto_map_fields (.dict data)) "others"
          = some (.dict (othersOf data)) ∧ kv ∈ othersOf data) ∧
    (∀ kv ∈ othersOf data, kv ∈ data ∧ isAliased kv.1 = false ∧
        kv.1 ≠ "name" ∧ kv.1 ≠ "mobile" ∧ kv.1 ≠ "email" ∧ kv.1 ≠ "address") := by
  constructor
  · intro kv hmem hun
    have hin : kv ∈ othersOf data := by
      simp only [othersOf, List.mem_filter]
      exact ⟨hmem, by simp [hun]⟩
    have hne : ¬ (othersOf data).isEmpty := by
      cases h : othersOf data with
      | nil => rw [h] at hin; cases hin
      | cons a l => simp
    refine ⟨?_, hin⟩
    rw [dictLookup_auto_map_others]
    simp [Bool.not_eq_true] at hne
    simp [hne]
  · intro kv hmem
    simp only [othersOf, List.mem_filter, Bool.not_eq_true'] at hmem
    obtain ⟨hin, hun⟩ := hmem
    refine ⟨hin, hun, ?_, ?_, ?_, ?_⟩ <;>
      · intro h
        rw [h] at hun
        exact absurd hun (by simp [isAliased, allAliasKeys, mapping])

/-- C2 witness: a concrete unrecognized entry lands unmodified in the
others bucket. -/
theorem C2_witness :
    dictLookup (auto_map_fields (.dict [("foo", Value.str "1")])) "others"
      = some (.dict (othersOf [("foo", Value.str "1")])) ∧
    ("foo", Value.str "1") ∈ othersOf [("foo", Value.str "1")] :=
  (C2_others_partition [("foo", Value.str "1")]).1 ("foo", Value.str "1")
    (List.mem_cons_self _ _) rfl

/-- C3: the dispatcher checks shapes in order, first match wins: a
list payload maps each element; a dict payload with a list under
"results" maps the elements of that list; a dict payload without a
list under "results", and any non-dict non-list payload, is a single
record; the worked example with autoMap on produces the mobile
record. -/
theorem C3_dispatch (am : Bool) :
    (∀ items, handle_multiple_results am (.list items) = items.map (mapItem am)) ∧
    (∀ d items, lookupAssoc d "results" = some (.list items) →
        handle_multiple_results am (.dict d) = items.map (mapItem am)) ∧
    (∀ d, lookupAssoc d "results" = none →
        handle_multiple_results am (.dict d) = [mapItem am (.dict d)]) ∧
    (∀ d v, lookupAssoc d "results" = some v → (∀ items, v ≠ .list items) →
        handle_multiple_results am (.dict d) = [mapItem am (.dict d)]) ∧
    (∀ s, handle_multiple_results am (.str s) = [mapItem am (.str s)]) ∧
    handle_multiple_results true
        (.dict [("results", .list [.dict [("phone", .str "123")]])])
      = [.dict [("mobile", .str "123")]] := by
  refine ⟨fun items => rfl, ?_, ?_, ?_, fun s => rfl, rfl⟩
  · intro d items h
    simp [handle_multiple_results, h]
  · intro d h
    simp [handle_multiple_results, h]
  · intro d v h hnl
    cases v with
    | list items => exact absurd rfl (hnl items)
    | null => simp [handle_multiple_results, h]
    | bool b => simp [handle_multiple_results, h]
    | int n => simp [handle_multiple_results, h]
    | str s => simp [handle_multiple_results, h]
    | dict d2 => simp [handle_multiple_results, h]

/-- C3 witness: the results branch at a concrete payload with an empty
inner list. -/
theorem C3_witness :
    handle_multiple_results true (.dict [("results", .list [])])
      = List.map (mapItem true) [] :=
  (C3_dispatch true).2.1 [("results", .list [])] [] rfl

/-- C4 counterexample: with autoMap off, a scalar payload is passed
through unchanged, not wrapped as a raw record, contradicting the
claimed coercion. -/
theorem C4_counterexample :
    handle_multiple_results false (.str "hello") = [.str "hello"] ∧
    handle_multiple_results false (.str "hello")
      ≠ [.dict [("raw", Value.str "hello")]] := by
  constructor
  · rfl
  · have h : handle_multiple_results false (.str "hello") = [.str "hello"] := rfl
    rw [h]
    simp

/-- C4 (amended): with autoMap off, every selected record is passed
through unchanged, including records that are not mappings: the output
is exactly the selected record sequence, with no wrapping. -/
theorem C4_passthrough (v : Value) :
    handle_multiple_results false v = selectedRecords v := by
  have hid : mapItem false = fun v => v := funext fun v => rfl
  cases v with
  | list items => simp [handle_multiple_results, selectedRecords, hid]
  | dict d =>
    simp only [handle_multiple_results, selectedRecords]
    rcases h : lookupAssoc d "results" with _ | rv
    · simp [mapItem]
    · cases rv <;> simp [mapItem, hid]
  | null => rfl
  | bool b => rfl
  | int n => rfl
  | str s => rfl

/-- C5 counterexample: the claim, as stated, fails when the phone
value is falsy.  For the input holding only phone mapped to the empty
string, the output has no mobile slot at all. -/
theorem C5_counterexample :
    lookupAssoc [("phone", Value.str "")] "phone" = some (Value.str "") ∧
    lookupAssoc [("phone", Value.str "")] "mobile" = none ∧
    dictLookup (auto_map_fields (.dict [("phone", Value.str "")])) "mobile"
      ≠ some (Value.str "") := by
  refine ⟨rfl, rfl, ?_⟩
  have h : dictLookup (auto_map_fields (.dict [("phone", Value.str "")])) "mobile"
      = none := rfl
  rw [h]
  simp

/-- C5 (amended): for every record holding no mobile key and a truthy
phone value, the output mobile slot equals the phone value. -/
theorem C5_phone_fallback (data : List (String × Value)) (v : Value)
    (hm : lookupAssoc data "mobile" = none)
    (hp : lookupAssoc data "phone" = some v) (ht : truthy v = true) :
    dictLookup (auto_map_fields (.dict data)) "mobile" = some v := by
  rw [dictLookup_auto_map_mobile]
  simp [selectSlot, hm, hp, ht]

/-- C5 witness: a concrete record with phone but no mobile. -/
theorem C5_witness :
    dictLookup (auto_map_fields (.dict [("phone", Value.str "123")])) "mobile"
      = some (Value.str "123") :=
  C5_phone_fallback [("phone", Value.str "123")] (Value.str "123") rfl rfl rfl

/-- C6 counterexample: the claim, as stated, fails on the empty input
mapping: the output is the empty dict, with no others key, because an
empty bucket is omitted. -/
theorem C6_counterexample :
    auto_map_fields (.dict []) = .dict [] ∧
    dictLookup (auto_map_fields (.dict [])) "others" = none :=
  ⟨rfl, rfl⟩

/-- C6 (amended): for every nonempty record none of whose keys occurs
in any alias list, the output has the single key others holding the
entire input; the empty input yields the empty output instead. -/
theorem C6_unrecognized (data : List (String × Value)) (hne : data ≠ [])
    (hall : ∀ kv ∈ data, isAliased kv.1 = false) :
    auto_map_fields (.dict data) = .dict [("others", .dict data)] := by
  have hothers : othersOf data = data := by
    apply List.filter_eq_self.mpr
    intro kv h
    simp [hall kv h]
  have hsel : ∀ k, isAliased k = true → lookupAssoc data k = none :=
    lookupAssoc_eq_none_of_unaliased data hall
  have hslots : slotEntries data = [] := by
    simp only [slotEntries, mapping, List.foldr]
    rw [show selectSlot data ["name", "fullname", "user"] = none by
          simp [selectSlot, hsel "name" rfl, hsel "fullname" rfl, hsel "user" rfl],
        show selectSlot data ["mobile", "phone", "number"] = none by
          simp [selectSlot, hsel "mobile" rfl, hsel "phone" rfl, hsel "number" rfl],
        show selectSlot data ["email", "mail"] = none by
          simp [selectSlot, hsel "email" rfl, hsel "mail" rfl],
        show selectSlot data ["address", "location"] = none by
          simp [selectSlot, hsel "address" rfl, hsel "location" rfl]]
  have hempty : data.isEmpty = false := by
    cases data with
    | nil => exact absurd rfl hne
    | cons a l => rfl
  simp [auto_map_fields, hothers, hslots, hempty]

/-- C6 witness: a concrete one-entry record with an unrecognized key. -/
theorem C6_witness :
    auto_map_fields (.dict [("foo", Value.str "1")])
      = .dict [("others", .dict [("foo", Value.str "1")])] :=
  C6_unrecognized [("foo", Value.str "1")] (by simp)
    (by
      intro kv hkv
      rw [List.mem_singleton] at hkv
      rw [hkv]
      rfl)

/-- C7: the lookup boundary converts every failure into a payload
holding the error message under the key error, with the status of the
failed response when one exists and None otherwise; no exception
propagates, since the boundary is total on outcomes. -/
theorem C7_transport_failure (msg : String) (st : Option Nat) :
    lookup_boundary (.requestException msg st) = (.dict [("error", .str msg)], st) ∧
    dictLookup (lookup_boundary (.requestException msg st)).1 "error"
      = some (.str msg) ∧
    lookup_boundary (.otherException msg) = (.dict [("error", .str msg)], none) ∧
    dictLookup (lookup_boundary (.otherException msg)).1 "error"
      = some (.str msg) :=
  ⟨rfl, rfl, rfl, rfl⟩

/-- C8: a response whose body does not parse as JSON is returned as a
text-wrapped record with the status code of the response; the payload
holds no error key. -/
theorem C8_text_fallback (r : HttpResponse) (h : r.json = none) :
    call_api r = (.dict [("text", .str r.text)], r.status_code) ∧
    dictLookup (call_api r).1 "error" = none := by
  constructor
  · simp [call_api, h]
  · simp [call_api, h, dictLookup, lookupAssoc]

/-- C8 witness: a concrete non-JSON response. -/
theorem C8_witness :
    call_api ⟨404, none, "oops"⟩ = (.dict [("text", Value.str "oops")], 404) ∧
    dictLookup (call_api ⟨404, none, "oops"⟩).1 "error" = none :=
  C8_text_fallback ⟨404, none, "oops"⟩ rfl

/-- C9: mock lookup is a pure function of the process hash and the
term: equal terms yield equal records; the record is one of exactly
three canned samples, selected by the hash of the term modulo three;
the mock branch of the handler pairs it with status 200. -/
theorem C9_mock_deterministic (pyhash : String → Int) (t t' : String)
    (heq : t = t') :
    mock_lookup pyhash t = mock_lookup pyhash t' ∧
    (∃ i, i < 3 ∧ mock_lookup pyhash t = (samples t).getD i Value.null) ∧
    (samples t).length = 3 ∧
    mock_branch pyhash t = (mock_lookup pyhash t, 200) := by
  subst heq
  refine ⟨rfl, ⟨((pyhash t) % 3).toNat, ?_, rfl⟩, rfl, rfl⟩
  have h1 := Int.emod_lt_of_pos (pyhash t) (by norm_num : (0:Int) < 3)
  have h2 := Int.emod_nonneg (pyhash t) (by norm_num : (3:Int) ≠ 0)
  omega

/-- C9 witness: a concrete hash function and term. -/
theorem C9_witness :
    mock_lookup (fun _ => 0) "x" = mock_lookup (fun _ => 0) "x" ∧
    (∃ i, i < 3 ∧ mock_lookup (fun _ => 0) "x" = (samples "x").getD i Value.null) ∧
    (samples "x").length = 3 ∧
    mock_branch (fun _ => 0) "x" = (mock_lookup (fun _ => 0) "x", 200) :=
  C9_mock_deterministic (fun _ => 0) "x" "x" rfl

/-- C10: the output length of the dispatcher equals the number of
selected records, with no minimum: the empty list payload and the
payload holding an empty list under "results" both yield the empty
sequence, while a scalar payload yields length one. -/
theorem C10_length (am : Bool) :
    (∀ v, (handle_multiple_results am v).length = (selectedRecords v).length) ∧
    handle_multiple_results am (.list []) = [] ∧
    handle_multiple_results am (.dict [("results", .list [])]) = [] ∧
    (∀ s, (handle_multiple_results am (.str s)).length = 1) ∧
    (∀ items, (handle_multiple_results am (.list items)).length = items.length) := by
  refine ⟨?_, rfl, ?_, fun s => rfl, fun items => by
    simp [handle_multiple_results]⟩
  · intro v
    cases v with
    | list items => simp [handle_multiple_results, selectedRecords]
    | dict d =>
      simp only [handle_multiple_results, selectedRecords]
      rcases h : lookupAssoc d "results" with _ | rv
      · simp
      · cases rv <;> simp
    | null => rfl
    | bool b => rfl
    | int n => rfl
    | str s => rfl
  · have h : lookupAssoc [("results", Value.list [])] "results"
        = some (Value.list []) := rfl
    simp [handle_multiple_results, h]

end NumInfo
